import Mathlib

/-!
Shallow embedding of `vcenter_vm_manager.py` (class `VCenterManager`) together with the
operation-tracker design specified for it (RemoteOperation / OperationTracker /
BatchExecutor).  Remote vCenter calls are modelled by oracles giving each task its
eventual terminal result; remote invocations and printed per-VM results are recorded
as events so that batch behaviour is stated over traces.
-/

namespace VCM

/-- A virtual machine as the script observes it: `vm.name`, `vm.runtime.powerState`
(a string such as "poweredOn" or "poweredOff") and `vm.summary.config.name`. -/
structure VM where
  name : String
  powerState : String
  configName : String
  deriving Repr, DecidableEq

/-- Eventual terminal result of a vCenter task: `task.info.state` reaching "success"
or "error", with `task.info.error.msg` carried on error. -/
inductive TaskOutcome
  | success
  | error (msg : String)
  deriving Repr, DecidableEq

/-- `VCenterManager.wait_for_task`, given the eventual terminal result of the task:
returns normally on "success" and raises `Exception(task.info.error.msg)` on
"error" (modelled as `Except.error msg`).  The source spins until the task reaches
a terminal state; the embedding takes that terminal state as input. -/
def wait_for_task : TaskOutcome → Except String Unit
  | .success => .ok ()
  | .error msg => .error msg

/-- Observable actions of the per-VM loops: remote invocations and the printed
per-VM results. -/
inductive Event
  | alreadyOn (name : String)
  | alreadyOff (name : String)
  | powerOnCall (name : String)
  | powerOffCall (name : String)
  | destroyCall (name : String)
  | powerOnOk (name : String)
  | powerOffOk (name : String)
  | deleteOk (name : String)
  | errCaught (name msg : String)
  deriving Repr, DecidableEq

/-- One iteration of the `power_on_vms` loop: a VM already "poweredOn" is only
reported, otherwise `vm.PowerOn()` is invoked and the task awaited; the per-VM
`except` clause turns a task error into a printed message for this VM only. -/
def power_on_one (taskRes : VM → TaskOutcome) (vm : VM) : List Event :=
  if vm.powerState = "poweredOn" then [.alreadyOn vm.name]
  else
    .powerOnCall vm.name ::
      match wait_for_task (taskRes vm) with
      | .ok _ => [.powerOnOk vm.name]
      | .error msg => [.errCaught vm.name msg]

/-- `VCenterManager.power_on_vms`: the per-VM loop over the filtered list. -/
def power_on_vms (taskRes : VM → TaskOutcome) (vms : List VM) : List Event :=
  (vms.map (power_on_one taskRes)).flatten

/-- One iteration of the `power_off_vms` loop: a VM already "poweredOff" is only
reported, otherwise `vm.PowerOffVM_Task()` is invoked and the task awaited; the
per-VM `except` clause catches any task error. -/
def power_off_one (taskRes : VM → TaskOutcome) (vm : VM) : List Event :=
  if vm.powerState = "poweredOff" then [.alreadyOff vm.name]
  else
    .powerOffCall vm.name ::
      match wait_for_task (taskRes vm) with
      | .ok _ => [.powerOffOk vm.name]
      | .error msg => [.errCaught vm.name msg]

/-- `VCenterManager.power_off_vms`: the per-VM loop over the filtered list. -/
def power_off_vms (taskRes : VM → TaskOutcome) (vms : List VM) : List Event :=
  (vms.map (power_off_one taskRes)).flatten

/-- One iteration of the `delete_vms` loop: a VM in state "poweredOn" is first powered
off and that task awaited; only when this wait returns without error is
`Destroy_Task` invoked.  Any task error is caught for this VM only. -/
def delete_one (offRes destroyRes : VM → TaskOutcome) (vm : VM) : List Event :=
  if vm.powerState = "poweredOn" then
    .powerOffCall vm.name ::
      match wait_for_task (offRes vm) with
      | .error msg => [.errCaught vm.name msg]
      | .ok _ =>
          .destroyCall vm.name ::
            match wait_for_task (destroyRes vm) with
            | .ok _ => [.deleteOk vm.name]
            | .error msg => [.errCaught vm.name msg]
  else
    .destroyCall vm.name ::
      match wait_for_task (destroyRes vm) with
      | .ok _ => [.deleteOk vm.name]
      | .error msg => [.errCaught vm.name msg]

/-- `VCenterManager.delete_vms`: the empty-list guard, then the confirmation prompt;
confirm is the stripped user input (`confirm = input(...).strip()` in the source)
and anything other than "DELETE" cancels the operation, then the per-VM loop. -/
def delete_vms (confirm : String) (offRes destroyRes : VM → TaskOutcome)
    (vms : List VM) : List Event :=
  if vms = [] then []
  else if confirm ≠ "DELETE" then []
  else (vms.map (delete_one offRes destroyRes)).flatten

/-- C8: a VM already in the requested power state is treated as a no-op success by
power_on_vms and power_off_vms: the remote PowerOn / PowerOffVM_Task call is not
invoked for that VM (its trace is just the already-in-state report) and the
remaining VMs before and after it are still processed. -/
theorem power_noop_when_in_state (taskRes : VM → TaskOutcome) (vms1 vms2 : List VM)
    (vmOn vmOff : VM) (hOn : vmOn.powerState = "poweredOn")
    (hOff : vmOff.powerState = "poweredOff") :
    power_on_vms taskRes (vms1 ++ vmOn :: vms2) =
      power_on_vms taskRes vms1 ++ .alreadyOn vmOn.name :: power_on_vms taskRes vms2 ∧
    Event.powerOnCall vmOn.name ∉ power_on_one taskRes vmOn ∧
    power_off_vms taskRes (vms1 ++ vmOff :: vms2) =
      power_off_vms taskRes vms1 ++ .alreadyOff vmOff.name :: power_off_vms taskRes vms2 ∧
    Event.powerOffCall vmOff.name ∉ power_off_one taskRes vmOff := by
  refine ⟨?_, ?_, ?_, ?_⟩
  · simp [power_on_vms, power_on_one, hOn]
  · simp [power_on_one, hOn]
  · simp [power_off_vms, power_off_one, hOff]
  · simp [power_off_one, hOff]

/-- C10: once the user confirms with the exact (stripped) string "DELETE", delete_vms
processes every VM in order; a powered-on VM is powered off first and Destroy_Task
is invoked only after the power-off task completed without error (if the power-off
task errors, Destroy_Task is never invoked for that VM); a VM not powered on is
destroyed without any power-off call; any other confirmation cancels the whole
action with no remote call. -/
theorem delete_vms_power_off_before_destroy (offRes destroyRes : VM → TaskOutcome)
    (confirm : String) (vms : List VM) (vmOn vmOff : VM)
    (hOn : vmOn.powerState = "poweredOn") (hOff : vmOff.powerState ≠ "poweredOn")
    (hconf : confirm = "DELETE") (hvms : vms ≠ []) :
    delete_vms confirm offRes destroyRes vms =
      (vms.map (delete_one offRes destroyRes)).flatten ∧
    (∃ rest, delete_one offRes destroyRes vmOn = .powerOffCall vmOn.name :: rest) ∧
    (offRes vmOn = .success →
      ∃ rest, delete_one offRes destroyRes vmOn =
        .powerOffCall vmOn.name :: .destroyCall vmOn.name :: rest) ∧
    (∀ msg, offRes vmOn = .error msg →
      Event.destroyCall vmOn.name ∉ delete_one offRes destroyRes vmOn) ∧
    Event.powerOffCall vmOff.name ∉ delete_one offRes destroyRes vmOff ∧
    (∃ rest, delete_one offRes destroyRes vmOff = .destroyCall vmOff.name :: rest) ∧
    (∀ c, c ≠ "DELETE" → delete_vms c offRes destroyRes vms = []) := by
  refine ⟨?_, ?_, ?_, ?_, ?_, ?_, ?_⟩
  · simp [delete_vms, hvms, hconf]
  · cases h : offRes vmOn with
    | success =>
        cases h2 : destroyRes vmOn with
        | success =>
            exact ⟨[.destroyCall vmOn.name, .deleteOk vmOn.name],
              by simp [delete_one, hOn, h, h2, wait_for_task]⟩
        | error m =>
            exact ⟨[.destroyCall vmOn.name, .errCaught vmOn.name m],
              by simp [delete_one, hOn, h, h2, wait_for_task]⟩
    | error m =>
        exact ⟨[.errCaught vmOn.name m], by simp [delete_one, hOn, h, wait_for_task]⟩
  · intro h
    cases h2 : destroyRes vmOn with
    | success =>
        exact ⟨[.deleteOk vmOn.name], by simp [delete_one, hOn, h, h2, wait_for_task]⟩
    | error m =>
        exact ⟨[.errCaught vmOn.name m], by simp [delete_one, hOn, h, h2, wait_for_task]⟩
  · intro msg h
    simp [delete_one, hOn, h, wait_for_task]
  · cases h : destroyRes vmOff with
    | success => simp [delete_one, hOff, h, wait_for_task]
    | error m => simp [delete_one, hOff, h, wait_for_task]
  · cases h : destroyRes vmOff with
    | success =>
        exact ⟨[.deleteOk vmOff.name], by simp [delete_one, hOff, h, wait_for_task]⟩
    | error m =>
        exact ⟨[.errCaught vmOff.name m], by simp [delete_one, hOff, h, wait_for_task]⟩
  · intro c hc
    unfold delete_vms
    split
    · rfl
    · simp [hc]

/-- Modelled from the spec: the enumerated operation type of a RemoteOperation; the
OperationTracker and BatchExecutor it belongs to are a design in the spec with no
implementation in the repository. -/
inductive OpKind
  | PowerOn | PowerOff | Snapshot | Revert | Reconfigure | ChangeNetwork | Delete
  deriving Repr, DecidableEq

/-- Modelled from the spec: the state field of a RemoteOperation. -/
inductive OpState
  | Submitted | Running | Succeeded | Failed | TimedOut | Cancelled
  deriving Repr, DecidableEq

/-- A terminal state: one from which no further transition occurs. -/
def OpState.isTerminal : OpState → Bool
  | .Succeeded | .Failed | .TimedOut | .Cancelled => true
  | _ => false

/-- Modelled from the spec: the error taxonomy of the tracker design. -/
inductive ErrKind
  | SubmissionError | RemoteExecutionError | TrackingLostError | TimeoutError
  | PreconditionError
  deriving Repr, DecidableEq

/-- An error payload: a kind plus a human message. -/
structure OpError where
  kind : ErrKind
  message : String
  deriving Repr, DecidableEq

/-- Modelled from the spec: the RemoteOperation entity, one in-flight action against
one target resource. -/
structure RemoteOperation where
  id : Nat
  target : String
  kind : OpKind
  state : OpState
  submittedAt : Nat
  completedAt : Option Nat
  error : Option OpError
  deriving Repr, DecidableEq

/-- What one poll of the remote handle reports: still running, a terminal result with
its error payload, or a transport failure while checking status. -/
inductive PollResult
  | running
  | succeeded
  | failed (msg : String)
  | transportError
  deriving Repr, DecidableEq

/-- First transition of an operation into a terminal state: the state is set and
completedAt is stamped. -/
def completeOp (op : RemoteOperation) (s : OpState) (e : Option OpError) (now : Nat) :
    RemoteOperation :=
  { op with state := s, completedAt := some now, error := e }

/-- Modelled from the spec: the bounded polling loop inside awaitCompletion.  fuel is
the number of polls the timeout still allows, i indexes the oracle, retries is the
remaining transport-retry budget.  Exhausted fuel yields TimedOut; a remote-reported
failure yields Failed with the message verbatim; an exhausted retry budget yields
Failed with a tracking-lost error.  The second component counts polls performed. -/
def awaitLoop (oracle : Nat → PollResult) (now : Nat) :
    Nat → Nat → Nat → RemoteOperation → RemoteOperation × Nat
  | 0, _, _, op => (completeOp op .TimedOut (some ⟨.TimeoutError, "timeout"⟩) now, 0)
  | fuel + 1, i, retries, op =>
      match oracle i with
      | .running =>
          ((awaitLoop oracle now fuel (i + 1) retries op).1,
           (awaitLoop oracle now fuel (i + 1) retries op).2 + 1)
      | .succeeded => (completeOp op .Succeeded none now, 1)
      | .failed msg => (completeOp op .Failed (some ⟨.RemoteExecutionError, msg⟩) now, 1)
      | .transportError =>
          match retries with
          | 0 => (completeOp op .Failed (some ⟨.TrackingLostError, "tracking lost"⟩) now, 1)
          | r + 1 =>
              ((awaitLoop oracle now fuel (i + 1) r op).1,
               (awaitLoop oracle now fuel (i + 1) r op).2 + 1)

/-- Modelled from the spec: OperationTracker.awaitCompletion(operation, timeout,
pollInterval).  The timeout argument is mandatory; at most timeout / pollInterval
polls are made before the operation is marked TimedOut, and an already terminal
operation is returned unchanged with zero polls.  The transport-retry budget is 3.
Returns the final snapshot and the number of polls performed. -/
def awaitCompletion (op : RemoteOperation) (timeout pollInterval : Nat)
    (oracle : Nat → PollResult) (now : Nat) : RemoteOperation × Nat :=
  if op.state.isTerminal then (op, 0)
  else awaitLoop oracle now (timeout / max 1 pollInterval) 0 3 op

/-- Modelled from the spec: OperationTracker.submit(target, kind, invoke).  invoke
performs the remote call and throws on submission failure (here Except.error); a
failure is captured into an operation already in Failed state with a
SubmissionError - submit itself never raises.  On success the operation is
immediately advanced to Running. -/
def submit (t : String) (kind : OpKind) (invoke : String → Except String Unit)
    (now : Nat) : RemoteOperation :=
  match invoke t with
  | .ok _ =>
      { id := 0, target := t, kind := kind, state := .Running, submittedAt := now,
        completedAt := none, error := none }
  | .error msg =>
      { id := 0, target := t, kind := kind, state := .Failed, submittedAt := now,
        completedAt := some now, error := some ⟨.SubmissionError, msg⟩ }

/-- Modelled from the spec: the synthesized terminal Failed outcome for a target whose
precondition check fails. -/
def preconditionFailure (t : String) (kind : OpKind) (now : Nat) : RemoteOperation :=
  { id := 0, target := t, kind := kind, state := .Failed, submittedAt := now,
    completedAt := some now, error := some ⟨.PreconditionError, "precondition violated"⟩ }

/-- Modelled from the spec: BatchExecutor.execute(targets, kind, precondition, invoke).
For each target independently: a failed precondition synthesizes a terminal Failed
outcome with a PreconditionError and skips invocation; otherwise submit is called and
then awaitCompletion.  Returns one outcome per target in order, together with the
list of targets for which invoke was actually called. -/
def execute (kind : OpKind) (precondition : String → Bool)
    (invoke : String → Except String Unit) (oracle : String → Nat → PollResult)
    (timeout pollInterval now : Nat) :
    List String → List RemoteOperation × List String
  | [] => ([], [])
  | t :: ts =>
      let rest := execute kind precondition invoke oracle timeout pollInterval now ts
      if precondition t then
        let fin := (awaitCompletion (submit t kind invoke now) timeout pollInterval
          (oracle t) now).1
        (fin :: rest.1, t :: rest.2)
      else
        (preconditionFailure t kind now :: rest.1, rest.2)

/-- Modelled from the spec: one transition of the tracker state machine on one poll
observation, carrying the remaining transport-retry budget.  A terminal operation is
never changed. -/
def trackStep (now : Nat) (s : RemoteOperation × Nat) (r : PollResult) :
    RemoteOperation × Nat :=
  if s.1.state.isTerminal then s
  else
    match r with
    | .running => s
    | .succeeded => (completeOp s.1 .Succeeded none now, s.2)
    | .failed msg => (completeOp s.1 .Failed (some ⟨.RemoteExecutionError, msg⟩) now, s.2)
    | .transportError =>
        match s.2 with
        | 0 => (completeOp s.1 .Failed (some ⟨.TrackingLostError, "tracking lost"⟩) now, 0)
        | n + 1 => (s.1, n)

/-- Modelled from the spec: a run of the tracker state machine over a sequence of poll
observations. -/
def runPolls (now : Nat) (s : RemoteOperation × Nat) (rs : List PollResult) :
    RemoteOperation × Nat :=
  rs.foldl (trackStep now) s

theorem awaitLoop_polls_le (oracle : Nat → PollResult) (now : Nat) :
    ∀ fuel i retries op, (awaitLoop oracle now fuel i retries op).2 ≤ fuel := by
  intro fuel
  induction fuel with
  | zero => intro i r op; simp [awaitLoop]
  | succ n ih =>
    intro i r op
    simp only [awaitLoop]
    cases oracle i with
    | running => exact Nat.succ_le_succ (ih (i + 1) r op)
    | succeeded => exact Nat.succ_le_succ (Nat.zero_le n)
    | failed msg => exact Nat.succ_le_succ (Nat.zero_le n)
    | transportError =>
      cases r with
      | zero => exact Nat.succ_le_succ (Nat.zero_le n)
      | succ m => exact Nat.succ_le_succ (ih (i + 1) m op)

theorem awaitLoop_target (oracle : Nat → PollResult) (now : Nat) :
    ∀ fuel i retries op,
      (awaitLoop oracle now fuel i retries op).1.target = op.target := by
  intro fuel
  induction fuel with
  | zero => intro i r op; simp [awaitLoop, completeOp]
  | succ n ih =>
    intro i r op
    simp only [awaitLoop]
    cases oracle i with
    | running => exact ih (i + 1) r op
    | succeeded => simp [completeOp]
    | failed msg => simp [completeOp]
    | transportError =>
      cases r with
      | zero => simp [completeOp]
      | succ m => exact ih (i + 1) m op

theorem awaitLoop_error_populated (oracle : Nat → PollResult) (now : Nat) :
    ∀ fuel i retries op,
      (awaitLoop oracle now fuel i retries op).1.state ≠ .Succeeded →
      (awaitLoop oracle now fuel i retries op).1.error.isSome = true := by
  intro fuel
  induction fuel with
  | zero => intro i r op _; simp [awaitLoop, completeOp]
  | succ n ih =>
    intro i r op h
    simp only [awaitLoop] at h ⊢
    cases hoi : oracle i with
    | running =>
        rw [hoi] at h
        exact ih (i + 1) r op h
    | succeeded =>
        rw [hoi] at h
        simp [completeOp] at h
    | failed msg => simp [completeOp]
    | transportError =>
        rw [hoi] at h
        cases r with
        | zero => simp [completeOp]
        | succ m => exact ih (i + 1) m op h

theorem awaitLoop_failed_at (oracle : Nat → PollResult) (now : Nat) (msg : String) :
    ∀ k fuel i retries op, (∀ j, j < k → oracle (i + j) = .running) →
      oracle (i + k) = .failed msg → k < fuel →
      (awaitLoop oracle now fuel i retries op).1 =
        completeOp op .Failed (some ⟨.RemoteExecutionError, msg⟩) now := by
  intro k
  induction k with
  | zero =>
    intro fuel i r op _ hk hfuel
    cases fuel with
    | zero => exact absurd hfuel (by omega)
    | succ n =>
      have h0 : oracle i = .failed msg := by simpa using hk
      simp [awaitLoop, h0]
  | succ k ih =>
    intro fuel i r op hrun hk hfuel
    cases fuel with
    | zero => exact absurd hfuel (by omega)
    | succ n =>
      have h0 : oracle i = .running := by simpa using hrun 0 (by omega)
      simp only [awaitLoop, h0]
      apply ih n (i + 1) r op
      · intro j hj
        have := hrun (j + 1) (by omega)
        simpa [Nat.add_comm, Nat.add_assoc, Nat.add_left_comm] using this
      · have : i + 1 + k = i + (k + 1) := by omega
        rw [this]; exact hk
      · omega

theorem awaitCompletion_of_terminal (op : RemoteOperation) (timeout pollInterval : Nat)
    (oracle : Nat → PollResult) (now : Nat) (h : op.state.isTerminal = true) :
    awaitCompletion op timeout pollInterval oracle now = (op, 0) := by
  simp [awaitCompletion, h]

theorem awaitCompletion_of_not_terminal (op : RemoteOperation)
    (timeout pollInterval : Nat) (oracle : Nat → PollResult) (now : Nat)
    (h : op.state.isTerminal = false) :
    awaitCompletion op timeout pollInterval oracle now =
      awaitLoop oracle now (timeout / max 1 pollInterval) 0 3 op := by
  simp [awaitCompletion, h]

theorem submit_of_error (t : String) (kind : OpKind)
    (invoke : String → Except String Unit) (now : Nat) (msg : String)
    (h : invoke t = .error msg) :
    submit t kind invoke now =
      { id := 0, target := t, kind := kind, state := .Failed, submittedAt := now,
        completedAt := some now, error := some ⟨.SubmissionError, msg⟩ } := by
  simp [submit, h]

theorem submit_target (t : String) (kind : OpKind)
    (invoke : String → Except String Unit) (now : Nat) :
    (submit t kind invoke now).target = t := by
  cases h : invoke t <;> simp [submit, h]

theorem awaitCompletion_target (op : RemoteOperation) (timeout pollInterval : Nat)
    (oracle : Nat → PollResult) (now : Nat) :
    (awaitCompletion op timeout pollInterval oracle now).1.target = op.target := by
  unfold awaitCompletion
  split
  · rfl
  · exact awaitLoop_target oracle now _ 0 3 op

theorem execute_targets_map (kind : OpKind) (pre : String → Bool)
    (invoke : String → Except String Unit) (oracle : String → Nat → PollResult)
    (timeout pollInterval now : Nat) :
    ∀ targets,
      ((execute kind pre invoke oracle timeout pollInterval now targets).1.map
        (fun o => o.target)) = targets := by
  intro targets
  induction targets with
  | nil => rfl
  | cons t ts ih =>
    simp only [execute]
    cases ht : pre t with
    | true => simp [ht, ih, awaitCompletion_target, submit_target]
    | false => simp [ht, ih, preconditionFailure]

theorem execute_length (kind : OpKind) (pre : String → Bool)
    (invoke : String → Except String Unit) (oracle : String → Nat → PollResult)
    (timeout pollInterval now : Nat) (targets : List String) :
    (execute kind pre invoke oracle timeout pollInterval now targets).1.length =
      targets.length := by
  have h := execute_targets_map kind pre invoke oracle timeout pollInterval now targets
  calc (execute kind pre invoke oracle timeout pollInterval now targets).1.length
      = ((execute kind pre invoke oracle timeout pollInterval now targets).1.map
          (fun o => o.target)).length := (List.length_map _ _).symm
    _ = targets.length := by rw [h]

theorem execute_invoked_pre (kind : OpKind) (pre : String → Bool)
    (invoke : String → Except String Unit) (oracle : String → Nat → PollResult)
    (timeout pollInterval now : Nat) :
    ∀ targets x,
      x ∈ (execute kind pre invoke oracle timeout pollInterval now targets).2 →
      pre x = true := by
  intro targets
  induction targets with
  | nil => intro x hx; simp [execute] at hx
  | cons t ts ih =>
    intro x hx
    simp only [execute] at hx
    cases ht : pre t with
    | true =>
        rw [ht] at hx
        simp at hx
        rcases hx with rfl | hx
        · exact ht
        · exact ih x hx
    | false =>
        rw [ht] at hx
        simp at hx
        exact ih x hx

theorem execute_mem_submit_fail (kind : OpKind) (pre : String → Bool)
    (invoke : String → Except String Unit) (oracle : String → Nat → PollResult)
    (timeout pollInterval now : Nat) (t msg : String)
    (hpre : pre t = true) (hinv : invoke t = .error msg) :
    ∀ targets, t ∈ targets →
      ∃ o ∈ (execute kind pre invoke oracle timeout pollInterval now targets).1,
        o.target = t ∧ o.state = .Failed ∧
        o.error = some ⟨.SubmissionError, msg⟩ := by
  intro targets
  induction targets with
  | nil => intro ht; cases ht
  | cons y ts ih =>
    intro ht
    rcases List.mem_cons.mp ht with rfl | hmem
    · have hsub := submit_of_error t kind invoke now msg hinv
      have hterm : (submit t kind invoke now).state.isTerminal = true := by
        rw [hsub]; rfl
      have hfin := awaitCompletion_of_terminal (submit t kind invoke now) timeout
        pollInterval (oracle t) now hterm
      refine ⟨submit t kind invoke now, ?_, submit_target _ _ _ _,
        by rw [hsub], by rw [hsub]⟩
      simp [execute, hpre, hfin]
    · obtain ⟨o, ho, hprop⟩ := ih hmem
      refine ⟨o, ?_, hprop⟩
      simp only [execute]
      cases hy : pre y with
      | true => simp [hy, List.mem_cons]; exact Or.inr ho
      | false => simp [hy, List.mem_cons]; exact Or.inr ho

theorem execute_mem_pre_fail (kind : OpKind) (pre : String → Bool)
    (invoke : String → Except String Unit) (oracle : String → Nat → PollResult)
    (timeout pollInterval now : Nat) (t : String) (hpre : pre t = false) :
    ∀ targets, t ∈ targets →
      ∃ o ∈ (execute kind pre invoke oracle timeout pollInterval now targets).1,
        o.target = t ∧ o.state = .Failed ∧
        o.error = some ⟨.PreconditionError, "precondition violated"⟩ := by
  intro targets
  induction targets with
  | nil => intro ht; cases ht
  | cons y ts ih =>
    intro ht
    rcases List.mem_cons.mp ht with rfl | hmem
    · refine ⟨preconditionFailure t kind now, ?_, rfl, rfl, rfl⟩
      simp [execute, hpre]
    · obtain ⟨o, ho, hprop⟩ := ih hmem
      refine ⟨o, ?_, hprop⟩
      simp only [execute]
      cases hy : pre y with
      | true => simp [hy, List.mem_cons]; exact Or.inr ho
      | false => simp [hy, List.mem_cons]; exact Or.inr ho

theorem execute_error_populated (kind : OpKind) (pre : String → Bool)
    (invoke : String → Except String Unit) (oracle : String → Nat → PollResult)
    (timeout pollInterval now : Nat) :
    ∀ targets o,
      o ∈ (execute kind pre invoke oracle timeout pollInterval now targets).1 →
      o.state ≠ .Succeeded → o.error.isSome = true := by
  intro targets
  induction targets with
  | nil => intro o ho _; simp [execute] at ho
  | cons y ts ih =>
    intro o ho hns
    simp only [execute] at ho
    cases hy : pre y with
    | false =>
        rw [hy] at ho
        simp at ho
        rcases ho with rfl | ho
        · simp [preconditionFailure]
        · exact ih o ho hns
    | true =>
        rw [hy] at ho
        simp at ho
        rcases ho with rfl | ho
        · cases hin : invoke y with
          | ok u =>
              have hrun : (submit y kind invoke now).state = .Running := by
                simp [submit, hin]
              have hnt : (submit y kind invoke now).state.isTerminal = false := by
                rw [hrun]; rfl
              rw [awaitCompletion_of_not_terminal _ timeout pollInterval (oracle y)
                now hnt] at hns ⊢
              exact awaitLoop_error_populated (oracle y) now _ 0 3 _ hns
          | error m =>
              have hsub := submit_of_error y kind invoke now m hin
              have hterm : (submit y kind invoke now).state.isTerminal = true := by
                rw [hsub]; rfl
              rw [awaitCompletion_of_terminal _ timeout pollInterval (oracle y) now
                hterm, hsub]
              rfl
        · exact ih o ho hns

theorem trackStep_of_terminal (now : Nat) (s : RemoteOperation × Nat) (r : PollResult)
    (h : s.1.state.isTerminal = true) : trackStep now s r = s := by
  simp [trackStep, h]

theorem runPolls_cons (now : Nat) (s : RemoteOperation × Nat) (r : PollResult)
    (rs : List PollResult) :
    runPolls now s (r :: rs) = runPolls now (trackStep now s r) rs := rfl

theorem runPolls_of_terminal (now : Nat) :
    ∀ rs (s : RemoteOperation × Nat), s.1.state.isTerminal = true →
      runPolls now s rs = s := by
  intro rs
  induction rs with
  | nil => intro s _; rfl
  | cons r rs ih =>
    intro s h
    rw [runPolls_cons, trackStep_of_terminal now s r h]
    exact ih s h

theorem runPolls_append (now : Nat) (s : RemoteOperation × Nat)
    (rs more : List PollResult) :
    runPolls now s (rs ++ more) = runPolls now (runPolls now s rs) more := by
  simp [runPolls, List.foldl_append]

theorem runPolls_completedAt (now : Nat) :
    ∀ rs (s : RemoteOperation × Nat), s.1.state.isTerminal = false →
      s.1.completedAt = none →
      ((runPolls now s rs).1.state.isTerminal = true →
        (runPolls now s rs).1.completedAt = some now) ∧
      ((runPolls now s rs).1.state.isTerminal = false →
        (runPolls now s rs).1.completedAt = none) := by
  intro rs
  induction rs with
  | nil =>
    intro s h hc
    refine ⟨fun ht => ?_, fun _ => hc⟩
    rw [show runPolls now s [] = s from rfl] at ht
    rw [h] at ht
    cases ht
  | cons r rs ih =>
    intro s h hc
    rw [runPolls_cons]
    have hstep : ((trackStep now s r).1.state.isTerminal = true ∧
        (trackStep now s r).1.completedAt = some now) ∨
        ((trackStep now s r).1.state.isTerminal = false ∧
        (trackStep now s r).1.completedAt = none) := by
      unfold trackStep
      simp only [h, Bool.false_eq_true, if_false]
      cases r with
      | running => exact Or.inr ⟨h, hc⟩
      | succeeded => exact Or.inl ⟨rfl, rfl⟩
      | failed msg => exact Or.inl ⟨rfl, rfl⟩
      | transportError =>
        cases hk : s.2 with
        | zero => exact Or.inl ⟨rfl, rfl⟩
        | succ n => exact Or.inr ⟨h, hc⟩
    rcases hstep with ⟨ht, hca⟩ | ⟨ht, hca⟩
    · have hall := runPolls_of_terminal now rs (trackStep now s r) ht
      rw [hall]
      refine ⟨fun _ => hca, fun hfl => ?_⟩
      rw [ht] at hfl
      cases hfl
    · exact ih (trackStep now s r) ht hca

/-- C1: every wait for a tracked operation takes an explicit timeout and never blocks
unboundedly: awaitCompletion performs at most timeout / pollInterval polls, and with
timeout = 0 an operation still Running is returned as TimedOut at once, after zero
polls, instead of waiting forever. -/
theorem awaitCompletion_bounded_timeout (op : RemoteOperation) (pollInterval : Nat)
    (oracle : Nat → PollResult) (now : Nat) (h : op.state = .Running) :
    (awaitCompletion op 0 pollInterval oracle now).1.state = .TimedOut ∧
    (awaitCompletion op 0 pollInterval oracle now).2 = 0 ∧
    ∀ timeout, (awaitCompletion op timeout pollInterval oracle now).2 ≤
      timeout / max 1 pollInterval := by
  have hnt : op.state.isTerminal = false := by rw [h]; rfl
  refine ⟨?_, ?_, ?_⟩
  · rw [awaitCompletion_of_not_terminal _ _ _ _ _ hnt]
    simp [Nat.zero_div, awaitLoop, completeOp]
  · rw [awaitCompletion_of_not_terminal _ _ _ _ _ hnt]
    simp [Nat.zero_div, awaitLoop]
  · intro timeout
    rw [awaitCompletion_of_not_terminal _ _ _ _ _ hnt]
    exact awaitLoop_polls_le oracle now _ 0 3 op

/-- C2: BatchExecutor.execute produces exactly one outcome per originally-requested
target, in order - the outcomes carry exactly the requested targets - for every
precondition, invoke and polling behaviour, so no single target failure, timeout or
precondition violation aborts processing of the remaining targets. -/
theorem execute_one_outcome_per_target (kind : OpKind) (precondition : String → Bool)
    (invoke : String → Except String Unit) (oracle : String → Nat → PollResult)
    (timeout pollInterval now : Nat) (targets : List String) :
    ((execute kind precondition invoke oracle timeout pollInterval now targets).1.map
      (fun o => o.target)) = targets ∧
    (execute kind precondition invoke oracle timeout pollInterval now
      targets).1.length = targets.length :=
  ⟨execute_targets_map kind precondition invoke oracle timeout pollInterval now targets,
   execute_length kind precondition invoke oracle timeout pollInterval now targets⟩

/-- C3: per-target errors from the taxonomy are captured into the outcome, never
raised out of execute: a failing invoke yields, already at submit, an operation in
Failed state carrying the submission error; execute still returns one outcome per
target; and the failing target has an outcome recording that very error. -/
theorem execute_captures_errors (kind : OpKind) (precondition : String → Bool)
    (invoke : String → Except String Unit) (oracle : String → Nat → PollResult)
    (timeout pollInterval now : Nat) (targets : List String) (t msg : String)
    (ht : t ∈ targets) (hpre : precondition t = true)
    (hinv : invoke t = .error msg) :
    (submit t kind invoke now).state = .Failed ∧
    (submit t kind invoke now).error = some ⟨.SubmissionError, msg⟩ ∧
    (execute kind precondition invoke oracle timeout pollInterval now
      targets).1.length = targets.length ∧
    ∃ o ∈ (execute kind precondition invoke oracle timeout pollInterval now targets).1,
      o.target = t ∧ o.state = .Failed ∧ o.error = some ⟨.SubmissionError, msg⟩ := by
  have hsub := submit_of_error t kind invoke now msg hinv
  refine ⟨by rw [hsub], by rw [hsub],
    execute_length kind precondition invoke oracle timeout pollInterval now targets,
    execute_mem_submit_fail kind precondition invoke oracle timeout pollInterval now
      t msg hpre hinv targets ht⟩

/-- C4: a target whose precondition fails gets a synthesized terminal Failed outcome
carrying a precondition-violation error, and the remote invoke function is never
called for that target (it is absent from the invocation log of execute). -/
theorem execute_precondition_skip (kind : OpKind) (precondition : String → Bool)
    (invoke : String → Except String Unit) (oracle : String → Nat → PollResult)
    (timeout pollInterval now : Nat) (targets : List String) (t : String)
    (ht : t ∈ targets) (hpre : precondition t = false) :
    (∃ o ∈ (execute kind precondition invoke oracle timeout pollInterval now
        targets).1,
      o.target = t ∧ o.state = .Failed ∧
      o.error = some ⟨.PreconditionError, "precondition violated"⟩) ∧
    t ∉ (execute kind precondition invoke oracle timeout pollInterval now targets).2 := by
  refine ⟨execute_mem_pre_fail kind precondition invoke oracle timeout pollInterval
    now t hpre targets ht, fun hmem => ?_⟩
  have := execute_invoked_pre kind precondition invoke oracle timeout pollInterval
    now targets t hmem
  rw [hpre] at this
  cases this

/-- C5: when the remote system reports failure at poll i (all earlier polls still
running, i within the timeout), awaitCompletion returns Failed carrying the remote
error message verbatim; and every non-Succeeded outcome of execute carries a
populated error, so no error is silently swallowed. -/
theorem remote_error_preserved (op : RemoteOperation) (timeout pollInterval : Nat)
    (oracle : Nat → PollResult) (now : Nat) (msg : String) (i : Nat)
    (kind : OpKind) (precondition : String → Bool)
    (invoke : String → Except String Unit) (orc : String → Nat → PollResult)
    (targets : List String)
    (hrun : op.state = .Running)
    (hbefore : ∀ j, j < i → oracle j = .running)
    (hi : oracle i = .failed msg)
    (hfuel : i < timeout / max 1 pollInterval) :
    (awaitCompletion op timeout pollInterval oracle now).1.state = .Failed ∧
    (awaitCompletion op timeout pollInterval oracle now).1.error =
      some ⟨.RemoteExecutionError, msg⟩ ∧
    ∀ o ∈ (execute kind precondition invoke orc timeout pollInterval now targets).1,
      o.state ≠ .Succeeded → o.error.isSome = true := by
  have hnt : op.state.isTerminal = false := by rw [hrun]; rfl
  have hfail := awaitLoop_failed_at oracle now msg i (timeout / max 1 pollInterval)
    0 3 op (by simpa using hbefore) (by simpa using hi) hfuel
  refine ⟨?_, ?_, ?_⟩
  · rw [awaitCompletion_of_not_terminal _ _ _ _ _ hnt, hfail]
    rfl
  · rw [awaitCompletion_of_not_terminal _ _ _ _ _ hnt, hfail]
    rfl
  · exact fun o ho => execute_error_populated kind precondition invoke orc timeout
      pollInterval now targets o ho

/-- C6: tracker state transitions are monotonic: starting from a non-terminal
operation with completedAt unset, once a run of poll observations reaches a
terminal state the snapshot never changes under any further observations,
completedAt is stamped exactly at that first terminal transition, and as long as a
run has not reached a terminal state completedAt stays unset. -/
theorem state_transitions_monotonic (now : Nat) (op : RemoteOperation) (k : Nat)
    (rs more : List PollResult)
    (h0 : op.state.isTerminal = false) (hc : op.completedAt = none)
    (hterm : (runPolls now (op, k) rs).1.state.isTerminal = true) :
    runPolls now (op, k) (rs ++ more) = runPolls now (op, k) rs ∧
    (runPolls now (op, k) rs).1.completedAt = some now ∧
    ∀ rs2, (runPolls now (op, k) rs2).1.state.isTerminal = false →
      (runPolls now (op, k) rs2).1.completedAt = none := by
  refine ⟨?_, ?_, ?_⟩
  · rw [runPolls_append]
    exact runPolls_of_terminal now more _ hterm
  · exact (runPolls_completedAt now rs (op, k) h0 hc).1 hterm
  · intro rs2 hnt
    exact (runPolls_completedAt now rs2 (op, k) h0 hc).2 hnt

/-- C7: awaitCompletion is idempotent on terminal operations: an operation already in
a terminal state is returned unchanged with zero polls performed, and calling
awaitCompletion again on the result - under any timeout, interval, oracle and
clock - gives the very same snapshot, again with zero polls. -/
theorem awaitCompletion_idempotent (op : RemoteOperation) (t1 p1 t2 p2 : Nat)
    (oracle1 oracle2 : Nat → PollResult) (now1 now2 : Nat)
    (h : op.state.isTerminal = true) :
    awaitCompletion op t1 p1 oracle1 now1 = (op, 0) ∧
    awaitCompletion (awaitCompletion op t1 p1 oracle1 now1).1 t2 p2 oracle2 now2 =
      (op, 0) := by
  have h1 := awaitCompletion_of_terminal op t1 p1 oracle1 now1 h
  refine ⟨h1, ?_⟩
  rw [h1]
  exact awaitCompletion_of_terminal op t2 p2 oracle2 now2 h

/-- A concrete operation still in flight, used by the witnesses. -/
def opRunningEx : RemoteOperation :=
  { id := 1, target := "vm-a", kind := .PowerOn, state := .Running,
    submittedAt := 0, completedAt := none, error := none }

/-- A concrete operation already terminal, used by the witnesses. -/
def opDoneEx : RemoteOperation :=
  { id := 2, target := "vm-b", kind := .Delete, state := .Succeeded,
    submittedAt := 0, completedAt := some 3, error := none }

/-- A concrete powered-on VM. -/
def vmOnEx : VM :=
  { name := "vm-on", powerState := "poweredOn", configName := "vm-on" }

/-- A concrete powered-off VM. -/
def vmOffEx : VM :=
  { name := "vm-off", powerState := "poweredOff", configName := "vm-off" }

/-- A concrete invoke callback that fails at submission for target vm-a. -/
def invokeEx : String → Except String Unit :=
  fun t => if t = "vm-a" then .error "no such vm" else .ok ()

/-- A concrete poll oracle whose operations all succeed at the first poll. -/
def oracleEx : String → Nat → PollResult := fun _ _ => .succeeded

/-- A concrete poll oracle reporting a remote failure at every poll. -/
def failOracleEx : Nat → PollResult := fun _ => .failed "boom"

/-- A concrete task-result oracle: every task ends in success. -/
def taskResEx : VM → TaskOutcome := fun _ => .success

/-- A precondition accepting every target. -/
def preTrueEx : String → Bool := fun _ => true

/-- A precondition rejecting exactly target vm-a. -/
def preVmaFalseEx : String → Bool := fun t => t != "vm-a"

/-- Witness for C1 at a concrete running operation. -/
theorem awaitCompletion_bounded_timeout_witness :
    opRunningEx.state = .Running ∧
    ((awaitCompletion opRunningEx 0 2 failOracleEx 5).1.state = .TimedOut ∧
     (awaitCompletion opRunningEx 0 2 failOracleEx 5).2 = 0 ∧
     ∀ timeout, (awaitCompletion opRunningEx timeout 2 failOracleEx 5).2 ≤
       timeout / max 1 2) :=
  ⟨rfl, awaitCompletion_bounded_timeout opRunningEx 2 failOracleEx 5 rfl⟩

/-- Witness for C3 at a concrete batch where invoke throws for vm-a. -/
theorem execute_captures_errors_witness :
    ("vm-a" ∈ ["vm-a", "vm-b"] ∧ preTrueEx "vm-a" = true ∧
     invokeEx "vm-a" = Except.error "no such vm") ∧
    ((submit "vm-a" .Snapshot invokeEx 7).state = .Failed ∧
     (submit "vm-a" .Snapshot invokeEx 7).error =
       some ⟨.SubmissionError, "no such vm"⟩ ∧
     (execute .Snapshot preTrueEx invokeEx oracleEx 4 1 7 ["vm-a", "vm-b"]).1.length =
       (["vm-a", "vm-b"] : List String).length ∧
     ∃ o ∈ (execute .Snapshot preTrueEx invokeEx oracleEx 4 1 7 ["vm-a", "vm-b"]).1,
       o.target = "vm-a" ∧ o.state = .Failed ∧
       o.error = some ⟨.SubmissionError, "no such vm"⟩) :=
  ⟨⟨by decide, rfl, by simp [invokeEx]⟩,
   execute_captures_errors .Snapshot preTrueEx invokeEx oracleEx 4 1 7
     ["vm-a", "vm-b"] "vm-a" "no such vm" (by decide) rfl (by simp [invokeEx])⟩

/-- Witness for C4 at a concrete batch where the precondition rejects vm-a. -/
theorem execute_precondition_skip_witness :
    ("vm-a" ∈ ["vm-b", "vm-a"] ∧ preVmaFalseEx "vm-a" = false) ∧
    ((∃ o ∈ (execute .Reconfigure preVmaFalseEx invokeEx oracleEx 4 1 9
        ["vm-b", "vm-a"]).1,
      o.target = "vm-a" ∧ o.state = .Failed ∧
      o.error = some ⟨.PreconditionError, "precondition violated"⟩) ∧
     "vm-a" ∉ (execute .Reconfigure preVmaFalseEx invokeEx oracleEx 4 1 9
        ["vm-b", "vm-a"]).2) :=
  ⟨⟨by decide, by decide⟩,
   execute_precondition_skip .Reconfigure preVmaFalseEx invokeEx oracleEx 4 1 9
     ["vm-b", "vm-a"] "vm-a" (by decide) (by decide)⟩

/-- Witness for C5 at a concrete operation whose first poll reports failure. -/
theorem remote_error_preserved_witness :
    (opRunningEx.state = .Running ∧
     (∀ j, j < 0 → failOracleEx j = .running) ∧
     failOracleEx 0 = .failed "boom" ∧
     0 < 4 / max 1 1) ∧
    ((awaitCompletion opRunningEx 4 1 failOracleEx 9).1.state = .Failed ∧
     (awaitCompletion opRunningEx 4 1 failOracleEx 9).1.error =
       some ⟨.RemoteExecutionError, "boom"⟩ ∧
     ∀ o ∈ (execute .PowerOn preTrueEx invokeEx oracleEx 4 1 9 ["vm-a"]).1,
       o.state ≠ .Succeeded → o.error.isSome = true) :=
  ⟨⟨rfl, fun j hj => absurd hj (Nat.not_lt_zero j), rfl, by decide⟩,
   remote_error_preserved opRunningEx 4 1 failOracleEx 9 "boom" 0 .PowerOn preTrueEx
     invokeEx oracleEx ["vm-a"] rfl (fun j hj => absurd hj (Nat.not_lt_zero j)) rfl
     (by decide)⟩

/-- Witness for C6 at a concrete run reaching Succeeded after one observation. -/
theorem state_transitions_monotonic_witness :
    (opRunningEx.state.isTerminal = false ∧ opRunningEx.completedAt = none ∧
     (runPolls 7 (opRunningEx, 3) [.succeeded]).1.state.isTerminal = true) ∧
    (runPolls 7 (opRunningEx, 3) ([.succeeded] ++ [.failed "x"]) =
       runPolls 7 (opRunningEx, 3) [.succeeded] ∧
     (runPolls 7 (opRunningEx, 3) [.succeeded]).1.completedAt = some 7 ∧
     ∀ rs2, (runPolls 7 (opRunningEx, 3) rs2).1.state.isTerminal = false →
       (runPolls 7 (opRunningEx, 3) rs2).1.completedAt = none) :=
  ⟨⟨rfl, rfl, rfl⟩,
   state_transitions_monotonic 7 opRunningEx 3 [.succeeded] [.failed "x"] rfl rfl rfl⟩

/-- Witness for C7 at a concrete already-terminal operation. -/
theorem awaitCompletion_idempotent_witness :
    opDoneEx.state.isTerminal = true ∧
    (awaitCompletion opDoneEx 4 1 failOracleEx 2 = (opDoneEx, 0) ∧
     awaitCompletion (awaitCompletion opDoneEx 4 1 failOracleEx 2).1 9 2
       failOracleEx 8 = (opDoneEx, 0)) :=
  ⟨rfl, awaitCompletion_idempotent opDoneEx 4 1 9 2 failOracleEx failOracleEx 2 8 rfl⟩

/-- Witness for C8 at one powered-on and one powered-off VM. -/
theorem power_noop_when_in_state_witness :
    (vmOnEx.powerState = "poweredOn" ∧ vmOffEx.powerState = "poweredOff") ∧
    (power_on_vms taskResEx ([] ++ vmOnEx :: []) =
       power_on_vms taskResEx [] ++ .alreadyOn vmOnEx.name ::
         power_on_vms taskResEx [] ∧
     Event.powerOnCall vmOnEx.name ∉ power_on_one taskResEx vmOnEx ∧
     power_off_vms taskResEx ([] ++ vmOffEx :: []) =
       power_off_vms taskResEx [] ++ .alreadyOff vmOffEx.name ::
         power_off_vms taskResEx [] ∧
     Event.powerOffCall vmOffEx.name ∉ power_off_one taskResEx vmOffEx) :=
  ⟨⟨rfl, rfl⟩, power_noop_when_in_state taskResEx [] [] vmOnEx vmOffEx rfl rfl⟩

/-- Witness for C10 at a concrete confirmed deletion of a powered-on VM. -/
theorem delete_vms_power_off_before_destroy_witness :
    (vmOnEx.powerState = "poweredOn" ∧ vmOffEx.powerState ≠ "poweredOn" ∧
     ("DELETE" : String) = "DELETE" ∧ ([vmOnEx] : List VM) ≠ []) ∧
    (delete_vms "DELETE" taskResEx taskResEx [vmOnEx] =
       ([vmOnEx].map (delete_one taskResEx taskResEx)).flatten ∧
     (∃ rest, delete_one taskResEx taskResEx vmOnEx =
        .powerOffCall vmOnEx.name :: rest) ∧
     (taskResEx vmOnEx = .success →
        ∃ rest, delete_one taskResEx taskResEx vmOnEx =
          .powerOffCall vmOnEx.name :: .destroyCall vmOnEx.name :: rest) ∧
     (∀ msg, taskResEx vmOnEx = .error msg →
        Event.destroyCall vmOnEx.name ∉ delete_one taskResEx taskResEx vmOnEx) ∧
     Event.powerOffCall vmOffEx.name ∉ delete_one taskResEx taskResEx vmOffEx ∧
     (∃ rest, delete_one taskResEx taskResEx vmOffEx =
        .destroyCall vmOffEx.name :: rest) ∧
     (∀ c, c ≠ "DELETE" → delete_vms c taskResEx taskResEx [vmOnEx] = [])) :=
  ⟨⟨rfl, by decide, rfl, by decide⟩,
   delete_vms_power_off_before_destroy taskResEx taskResEx "DELETE" [vmOnEx]
     vmOnEx vmOffEx rfl (by decide) rfl (by decide)⟩

end VCM
